import Mathlib

/-!
# HX8369 panel driver (`src/hx8369/hx8369.c`)

A shallow embedding of the panel driver: the handle `hx8369_panel_t` is a
structure passed in and returned explicitly, every call to a platform
collaborator (bus transaction, GPIO, timed wait) is recorded as an `Effect`
in the order the C code makes it, and C integers are mathematical integers
reduced explicitly to their machine width.
-/

namespace HX8369

/-! ## Machine integers -/

/-- Value held by a C `int` (32 bits, two's complement) after an arithmetic
operation whose mathematical result is `v`.  Signed overflow is undefined in
C; the model wraps, as the target compiler does. -/
def wrapInt (v : Int) : Int := (v + 2 ^ 31) % 2 ^ 32 - 2 ^ 31

/-- Conversion of an integer value to `uint8_t`. -/
def toU8 (v : Int) : Nat := (v % 256).toNat

/-- Conversion of an integer value to `unsigned int` (32 bits). -/
def toU32 (v : Int) : Nat := (v % 2 ^ 32).toNat

/-- Error codes are plain integers (`esp_err_t`). -/
abbrev esp_err_t := Int

/-! ## Constants of the platform headers -/

/-- Modelled from the spec: `ESP_OK` of `esp_err.h` (not under src/), success. -/
def ESP_OK : esp_err_t := 0
/-- Modelled from the spec: `ESP_ERR_NO_MEM` of `esp_err.h` (not under src/), OutOfMemory. -/
def ESP_ERR_NO_MEM : esp_err_t := 0x101
/-- Modelled from the spec: `ESP_ERR_INVALID_ARG` of `esp_err.h` (not under src/), InvalidArgument. -/
def ESP_ERR_INVALID_ARG : esp_err_t := 0x102
/-- Modelled from the spec: `ESP_ERR_NOT_SUPPORTED` of `esp_err.h` (not under src/), Unsupported. -/
def ESP_ERR_NOT_SUPPORTED : esp_err_t := 0x106

/-- Modelled from the spec: `ESP_LCD_COLOR_SPACE_RGB` of `esp_lcd_types.h` (not under src/). -/
def ESP_LCD_COLOR_SPACE_RGB : Int := 0
/-- Modelled from the spec: `ESP_LCD_COLOR_SPACE_BGR` of `esp_lcd_types.h` (not under src/). -/
def ESP_LCD_COLOR_SPACE_BGR : Int := 1

/-- Modelled from the spec: `LCD_CMD_SWRESET` of `esp_lcd_panel_commands.h` (not under src/), software reset. -/
def LCD_CMD_SWRESET : Int := 0x01
/-- Modelled from the spec: `LCD_CMD_SLPOUT` of `esp_lcd_panel_commands.h` (not under src/), exit sleep. -/
def LCD_CMD_SLPOUT : Int := 0x11
/-- Modelled from the spec: `LCD_CMD_INVOFF` of `esp_lcd_panel_commands.h` (not under src/), invert off. -/
def LCD_CMD_INVOFF : Int := 0x20
/-- Modelled from the spec: `LCD_CMD_INVON` of `esp_lcd_panel_commands.h` (not under src/), invert on. -/
def LCD_CMD_INVON : Int := 0x21
/-- Modelled from the spec: `LCD_CMD_DISPOFF` of `esp_lcd_panel_commands.h` (not under src/), display off. -/
def LCD_CMD_DISPOFF : Int := 0x28
/-- Modelled from the spec: `LCD_CMD_DISPON` of `esp_lcd_panel_commands.h` (not under src/), display on. -/
def LCD_CMD_DISPON : Int := 0x29
/-- Modelled from the spec: `LCD_CMD_CASET` of `esp_lcd_panel_commands.h` (not under src/), column-address-set. -/
def LCD_CMD_CASET : Int := 0x2A
/-- Modelled from the spec: `LCD_CMD_RASET` of `esp_lcd_panel_commands.h` (not under src/), row-address-set. -/
def LCD_CMD_RASET : Int := 0x2B
/-- Modelled from the spec: `LCD_CMD_RAMWR` of `esp_lcd_panel_commands.h` (not under src/), memory write. -/
def LCD_CMD_RAMWR : Int := 0x2C
/-- Modelled from the spec: `LCD_CMD_MADCTL` of `esp_lcd_panel_commands.h` (not under src/), the control register. -/
def LCD_CMD_MADCTL : Int := 0x36
/-- Modelled from the spec: `LCD_CMD_COLMOD` of `esp_lcd_panel_commands.h` (not under src/), the pixel format register. -/
def LCD_CMD_COLMOD : Int := 0x3A
/-- Modelled from the spec: `LCD_CMD_BGR_BIT` of `esp_lcd_panel_commands.h` (not under src/), the colour-order bit. -/
def LCD_CMD_BGR_BIT : Int := 0x08
/-- Modelled from the spec: `LCD_CMD_MV_BIT` of `esp_lcd_panel_commands.h` (not under src/), the swap-axis bit. -/
def LCD_CMD_MV_BIT : Int := 0x20
/-- Modelled from the spec: `LCD_CMD_MX_BIT` of `esp_lcd_panel_commands.h` (not under src/), the mirror-X bit. -/
def LCD_CMD_MX_BIT : Int := 0x40
/-- Modelled from the spec: `LCD_CMD_MY_BIT` of `esp_lcd_panel_commands.h` (not under src/), the mirror-Y bit. -/
def LCD_CMD_MY_BIT : Int := 0x80

/-! ## Collaborators -/

/-- One observable call to a platform collaborator. -/
inductive Effect where
  /-- The call `esp_lcd_panel_io_tx_param(io, lcd_cmd, param, param_size)`, with the bytes sent. -/
  | tx_param (io : Nat) (lcd_cmd : Int) (param : List Nat)
  /-- The call `esp_lcd_panel_io_tx_color(io, lcd_cmd, color, color_size)`. -/
  | tx_color (io : Nat) (lcd_cmd : Int) (color : Nat) (color_size : Nat)
  /-- The call `gpio_config` of an output with the given `pin_bit_mask`. -/
  | gpio_config (pin_bit_mask : Nat)
  /-- The call `gpio_set_level(gpio_num, level)`. -/
  | gpio_set_level (gpio_num : Int) (level : Nat)
  /-- The call `gpio_reset_pin(gpio_num)`. -/
  | gpio_reset_pin (gpio_num : Int)
  /-- The call `vTaskDelay(pdMS_TO_TICKS(ms))`, recorded by its millisecond argument. -/
  | delay_ms (ms : Nat)
  deriving DecidableEq, Repr

/-- What the collaborators answer: whether `calloc` yields memory, and the
error code each GPIO configuration and bus transaction returns. -/
structure Platform where
  calloc_ok : Bool
  gpio_config : Nat → esp_err_t
  tx_param : Int → List Nat → esp_err_t
  tx_color : Int → Nat → esp_err_t

/-- The bus call `esp_lcd_panel_io_tx_param`: sends `param_size` bytes of `param`
(a NULL `param` with size 0 is the empty list) and returns the bus's code. -/
def esp_lcd_panel_io_tx_param (pf : Platform) (io : Nat) (lcd_cmd : Int)
    (param : List Nat) (param_size : Nat) : esp_err_t × List Effect :=
  (pf.tx_param lcd_cmd (param.take param_size),
   [Effect.tx_param io lcd_cmd (param.take param_size)])

/-- The bus call `esp_lcd_panel_io_tx_color`. -/
def esp_lcd_panel_io_tx_color (pf : Platform) (io : Nat) (lcd_cmd : Int)
    (color : Nat) (color_size : Nat) : esp_err_t × List Effect :=
  (pf.tx_color lcd_cmd color_size, [Effect.tx_color io lcd_cmd color color_size])

/-! ## The handle -/

/-- The struct `hx8369_panel_t` (the `base` table of function pointers is the
same for every handle and is left out). `io` is a pointer value, 0 for NULL. -/
structure hx8369_panel_t where
  io : Nat
  reset_gpio_num : Int
  reset_level : Bool
  x_gap : Int
  y_gap : Int
  bits_per_pixel : Nat
  madctl_val : Nat
  colmod_cal : Nat
  deriving DecidableEq, Repr

/-- The fields of `esp_lcd_panel_dev_config_t` that the driver reads. -/
structure esp_lcd_panel_dev_config_t where
  reset_gpio_num : Int
  color_space : Int
  bits_per_pixel : Nat
  reset_active_high : Bool
  deriving DecidableEq, Repr

/-- Result of a panel operation: the returned code, the handle afterwards
and the collaborator calls made, in order. -/
structure Outcome where
  ret : esp_err_t
  panel : hx8369_panel_t
  effects : List Effect
  deriving DecidableEq, Repr

/-- Result of the factory: the returned code, what was stored through
`ret_panel` (`none` when the slot was left unwritten) and the collaborator
calls made. -/
structure NewOutcome where
  ret : esp_err_t
  ret_panel : Option hx8369_panel_t
  effects : List Effect
  deriving DecidableEq, Repr

/-- The memory `calloc(1, sizeof(hx8369_panel_t))` returns: all fields zero. -/
def calloc_panel : hx8369_panel_t :=
  { io := 0, reset_gpio_num := 0, reset_level := false, x_gap := 0, y_gap := 0,
    bits_per_pixel := 0, madctl_val := 0, colmod_cal := 0 }

/-- The `err:` label of `esp_lcd_new_panel_hx8369` when the handle was
allocated: release the reset pin if there is one, free, return `ret`. -/
def new_panel_err (cfg : esp_lcd_panel_dev_config_t) (ret : esp_err_t)
    (done : List Effect) : NewOutcome :=
  { ret := ret, ret_panel := none,
    effects := done ++
      (if cfg.reset_gpio_num ≥ 0 then [Effect.gpio_reset_pin cfg.reset_gpio_num] else []) }

/-- The factory `esp_lcd_new_panel_hx8369(io, panel_dev_config, ret_panel)`.
`io` is a pointer value (0 for NULL), `panel_dev_config` is `none` for NULL and
`ret_panel` tells whether the output slot is present. -/
def esp_lcd_new_panel_hx8369 (pf : Platform) (io : Nat)
    (panel_dev_config : Option esp_lcd_panel_dev_config_t) (ret_panel : Bool) : NewOutcome :=
  match panel_dev_config with
  | none => { ret := ESP_ERR_INVALID_ARG, ret_panel := none, effects := [] }
  | some cfg =>
    if io = 0 ∨ ret_panel = false then
      { ret := ESP_ERR_INVALID_ARG, ret_panel := none, effects := [] }
    else if pf.calloc_ok = false then
      { ret := ESP_ERR_NO_MEM, ret_panel := none, effects := [] }
    else
      let hx8369 := calloc_panel
      let pin_bit_mask := (1 <<< cfg.reset_gpio_num.toNat) % 2 ^ 64
      let gpio : List Effect :=
        if cfg.reset_gpio_num ≥ 0 then [Effect.gpio_config pin_bit_mask] else []
      if cfg.reset_gpio_num ≥ 0 ∧ pf.gpio_config pin_bit_mask ≠ ESP_OK then
        new_panel_err cfg (pf.gpio_config pin_bit_mask) gpio
      else if cfg.color_space ≠ ESP_LCD_COLOR_SPACE_RGB
          ∧ cfg.color_space ≠ ESP_LCD_COLOR_SPACE_BGR then
        new_panel_err cfg ESP_ERR_NOT_SUPPORTED gpio
      else
        let hx8369 :=
          if cfg.color_space = ESP_LCD_COLOR_SPACE_RGB then
            { hx8369 with madctl_val := 0 }
          else
            { hx8369 with madctl_val := toU8 (Int.lor hx8369.madctl_val LCD_CMD_BGR_BIT) }
        if cfg.bits_per_pixel ≠ 16 ∧ cfg.bits_per_pixel ≠ 18 then
          new_panel_err cfg ESP_ERR_NOT_SUPPORTED gpio
        else
          let hx8369 :=
            if cfg.bits_per_pixel = 16 then { hx8369 with colmod_cal := 0x55 }
            else { hx8369 with colmod_cal := 0x66 }
          let hx8369 :=
            { hx8369 with
              io := io
              bits_per_pixel := cfg.bits_per_pixel
              reset_gpio_num := cfg.reset_gpio_num
              reset_level := cfg.reset_active_high }
          { ret := ESP_OK, ret_panel := some hx8369, effects := gpio }

/-! ## Operations on a handle -/

/-- The operation `panel_hx8369_reset`. -/
def panel_hx8369_reset (pf : Platform) (hx8369 : hx8369_panel_t) : Outcome :=
  if hx8369.reset_gpio_num ≥ 0 then
    { ret := ESP_OK, panel := hx8369,
      effects :=
        [ Effect.gpio_set_level hx8369.reset_gpio_num hx8369.reset_level.toNat,
          Effect.delay_ms 10,
          Effect.gpio_set_level hx8369.reset_gpio_num (!hx8369.reset_level).toNat,
          Effect.delay_ms 10 ] }
  else
    let t := esp_lcd_panel_io_tx_param pf hx8369.io LCD_CMD_SWRESET [] 0
    { ret := ESP_OK, panel := hx8369, effects := t.2 ++ [Effect.delay_ms 20] }

/-- Parameters of Set_EXTC (0xB9). -/
def param_B9 : List Nat := [0xFF, 0x83, 0x69]

/-- Parameters of Set Power (0xB1). -/
def param_B1 : List Nat :=
  [0x01, 0x00, 0x34, 0x06, 0x00, 0x0f, 0x0f, 0x2a, 0x32, 0x3f,
   0x3f, 0x07, 0x23, 0x01, 0xe6, 0xe6, 0xe6, 0xe6, 0xe6]

/-- Parameters of SET Display 480x800 (0xB2). -/
def param_B2 : List Nat :=
  [0x00, 0x20, 0x03, 0x03, 0x70, 0x00, 0xff, 0x00, 0x00, 0x00,
   0x00, 0x03, 0x03, 0x00, 0x01]

/-- Parameters of SET Display CYC (0xB4). -/
def param_B4 : List Nat := [0x00, 0x0C, 0xA0, 0x0E, 0x06]

/-- Parameters of SET VCOM (0xB6). -/
def param_B6 : List Nat := [0x2C, 0x2C]

/-- Parameters of SET GIP (0xD5). -/
def param_D5 : List Nat :=
  [0x00, 0x05, 0x03, 0x00, 0x01, 0x09, 0x10,
   0x80, 0x37, 0x37, 0x20, 0x31, 0x46,
   0x8a, 0x57, 0x9b, 0x20, 0x31, 0x46, 0x8a,
   0x57, 0x9b, 0x07, 0x0f, 0x02, 0x00]

/-- Parameters of SET GAMMA (0xE0). -/
def param_E0 : List Nat :=
  [0x00, 0x08, 0x0d, 0x2d, 0x34, 0x3f, 0x19, 0x38, 0x09,
   0x0e, 0x0e, 0x12, 0x14, 0x12, 0x14, 0x13, 0x19,
   0x00, 0x08, 0x0d, 0x2d, 0x34, 0x3f, 0x19, 0x38, 0x09,
   0x0e, 0x0e, 0x12, 0x14, 0x12, 0x14, 0x13, 0x19]

/-- Parameters of set DGC (0xC1). -/
def param_C1 : List Nat :=
  [0x01, 0x02, 0x08, 0x12, 0x1a, 0x22, 0x2a, 0x31,
   0x36, 0x3f, 0x48, 0x51, 0x58, 0x60, 0x68, 0x70,
   0x78, 0x80, 0x88, 0x90, 0x98, 0xa0, 0xa7, 0xaf,
   0xb6, 0xbe, 0xc7, 0xce, 0xd6, 0xde, 0xe6, 0xef,
   0xf5, 0xfb, 0xfc, 0xfe, 0x8c, 0xa4, 0x19, 0xec,
   0x1b, 0x4c, 0x40, 0x02, 0x08, 0x12, 0x1a, 0x22,
   0x2a, 0x31, 0x36, 0x3f, 0x48, 0x51, 0x58, 0x60,
   0x68, 0x70, 0x78, 0x80, 0x88, 0x90, 0x98, 0xa0,
   0xa7, 0xaf, 0xb6, 0xbe, 0xc7, 0xce, 0xd6, 0xde,
   0xe6, 0xef, 0xf5, 0xfb, 0xfc, 0xfe, 0x8c, 0xa4,
   0x19, 0xec, 0x1b, 0x4c, 0x40, 0x02, 0x08, 0x12,
   0x1a, 0x22, 0x2a, 0x31, 0x36, 0x3f, 0x48, 0x51,
   0x58, 0x60, 0x68, 0x70, 0x78, 0x80, 0x88, 0x90,
   0x98, 0xa0, 0xa7, 0xaf, 0xb6, 0xbe, 0xc7, 0xce,
   0xd6, 0xde, 0xe6, 0xef, 0xf5, 0xfb, 0xfc, 0xfe,
   0x8c, 0xa4, 0x19, 0xec, 0x1b, 0x4c, 0x40]

/-- The local array `cmd_192` after the three loops of `panel_hx8369_init`:
`for i in 0..63: cmd_192[i] = i * 8`, `for i in 64..127: cmd_192[i] = i * 4`,
`for i in 128..191: cmd_192[i] = i * 8`, each product stored into a `uint8_t`. -/
def cmd_192 : List Nat :=
  let a : List Nat := List.replicate 192 0
  let a := (List.range' 0 64).foldl (fun a i => a.set i (toU8 ((i * 8 % 2 ^ 32 : Nat) : Int))) a
  let a := (List.range' 64 64).foldl (fun a i => a.set i (toU8 ((i * 4 % 2 ^ 32 : Nat) : Int))) a
  let a := (List.range' 128 64).foldl (fun a i => a.set i (toU8 ((i * 8 % 2 ^ 32 : Nat) : Int))) a
  a

/-- The operation `panel_hx8369_init`.  The code of every bus transaction is
discarded. -/
def panel_hx8369_init (pf : Platform) (hx8369 : hx8369_panel_t) : Outcome :=
  let io := hx8369.io
  let t1 := esp_lcd_panel_io_tx_param pf io 0xB9 param_B9 3
  let t2 := esp_lcd_panel_io_tx_param pf io 0xB1 param_B1 19
  let t3 := esp_lcd_panel_io_tx_param pf io 0xB2 param_B2 15
  let t4 := esp_lcd_panel_io_tx_param pf io 0xB4 param_B4 5
  let t5 := esp_lcd_panel_io_tx_param pf io 0xB6 param_B6 2
  let t6 := esp_lcd_panel_io_tx_param pf io 0xD5 param_D5 26
  let t7 := esp_lcd_panel_io_tx_param pf io 0xE0 param_E0 34
  let t8 := esp_lcd_panel_io_tx_param pf io 0xC1 param_C1 127
  let t9 := esp_lcd_panel_io_tx_param pf io 0x2D cmd_192 192
  let t10 := esp_lcd_panel_io_tx_param pf io LCD_CMD_SLPOUT [] 0
  let d := [Effect.delay_ms 100]
  let t11 := esp_lcd_panel_io_tx_param pf io LCD_CMD_MADCTL [hx8369.madctl_val] 1
  let t12 := esp_lcd_panel_io_tx_param pf io LCD_CMD_COLMOD [hx8369.colmod_cal] 1
  { ret := ESP_OK, panel := hx8369,
    effects := t1.2 ++ t2.2 ++ t3.2 ++ t4.2 ++ t5.2 ++ t6.2 ++ t7.2 ++ t8.2 ++ t9.2
      ++ t10.2 ++ d ++ t11.2 ++ t12.2 }

/-- Byte length computed by `panel_hx8369_draw_bitmap` for the bulk transfer,
from the coordinates after the gaps were added:
`(x_end - x_start) * (y_end - y_start) * bits_per_pixel / 8`, the first product
in `int`, the second and the division in `unsigned int`. -/
def draw_len (x_start y_start x_end y_end : Int) (bits_per_pixel : Nat) : Nat :=
  toU32 (wrapInt (wrapInt (x_end - x_start) * wrapInt (y_end - y_start)))
    * bits_per_pixel % 2 ^ 32 / 8

/-- The operation `panel_hx8369_draw_bitmap`; `none` when the assertion
`x_start < x_end && y_start < y_end` fails and the program aborts.
`color_data` is the address of the pixel buffer. -/
def panel_hx8369_draw_bitmap (pf : Platform) (hx8369 : hx8369_panel_t)
    (x_start y_start x_end y_end : Int) (color_data : Nat) : Option Outcome :=
  if x_start < x_end ∧ y_start < y_end then
    let io := hx8369.io
    let x_start := wrapInt (x_start + hx8369.x_gap)
    let x_end := wrapInt (x_end + hx8369.x_gap)
    let y_start := wrapInt (y_start + hx8369.y_gap)
    let y_end := wrapInt (y_end + hx8369.y_gap)
    let t1 := esp_lcd_panel_io_tx_param pf io LCD_CMD_CASET
      [ toU8 (Int.land (Int.shiftRight x_start 8) 0xFF),
        toU8 (Int.land x_start 0xFF),
        toU8 (Int.land (Int.shiftRight (wrapInt (x_end - 1)) 8) 0xFF),
        toU8 (Int.land (wrapInt (x_end - 1)) 0xFF) ] 4
    let t2 := esp_lcd_panel_io_tx_param pf io LCD_CMD_RASET
      [ toU8 (Int.land (Int.shiftRight y_start 8) 0xFF),
        toU8 (Int.land y_start 0xFF),
        toU8 (Int.land (Int.shiftRight (wrapInt (y_end - 1)) 8) 0xFF),
        toU8 (Int.land (wrapInt (y_end - 1)) 0xFF) ] 4
    let len := draw_len x_start y_start x_end y_end hx8369.bits_per_pixel
    let t3 := esp_lcd_panel_io_tx_color pf io LCD_CMD_RAMWR color_data len
    some { ret := ESP_OK, panel := hx8369, effects := t1.2 ++ t2.2 ++ t3.2 }
  else none

/-- The operation `panel_hx8369_invert_color`. -/
def panel_hx8369_invert_color (pf : Platform) (hx8369 : hx8369_panel_t)
    (invert_color_data : Bool) : Outcome :=
  let command : Int := if invert_color_data then LCD_CMD_INVON else LCD_CMD_INVOFF
  let t := esp_lcd_panel_io_tx_param pf hx8369.io command [] 0
  { ret := ESP_OK, panel := hx8369, effects := t.2 }

/-- The operation `panel_hx8369_mirror`: `madctl_val |= BIT` or
`madctl_val &= ~BIT` for each of the two bits, in `int` after promotion and
stored back into the `uint8_t`, then one MADCTL write. -/
def panel_hx8369_mirror (pf : Platform) (hx8369 : hx8369_panel_t)
    (mirror_x mirror_y : Bool) : Outcome :=
  let hx8369 :=
    if mirror_x then
      { hx8369 with madctl_val := toU8 (Int.lor hx8369.madctl_val LCD_CMD_MX_BIT) }
    else
      { hx8369 with madctl_val := toU8 (Int.land hx8369.madctl_val (Int.lnot LCD_CMD_MX_BIT)) }
  let hx8369 :=
    if mirror_y then
      { hx8369 with madctl_val := toU8 (Int.lor hx8369.madctl_val LCD_CMD_MY_BIT) }
    else
      { hx8369 with madctl_val := toU8 (Int.land hx8369.madctl_val (Int.lnot LCD_CMD_MY_BIT)) }
  let t := esp_lcd_panel_io_tx_param pf hx8369.io LCD_CMD_MADCTL [hx8369.madctl_val] 1
  { ret := ESP_OK, panel := hx8369, effects := t.2 }

/-- The operation `panel_hx8369_swap_xy`. -/
def panel_hx8369_swap_xy (pf : Platform) (hx8369 : hx8369_panel_t)
    (swap_axes : Bool) : Outcome :=
  let hx8369 :=
    if swap_axes then
      { hx8369 with madctl_val := toU8 (Int.lor hx8369.madctl_val LCD_CMD_MV_BIT) }
    else
      { hx8369 with madctl_val := toU8 (Int.land hx8369.madctl_val (Int.lnot LCD_CMD_MV_BIT)) }
  let t := esp_lcd_panel_io_tx_param pf hx8369.io LCD_CMD_MADCTL [hx8369.madctl_val] 1
  { ret := ESP_OK, panel := hx8369, effects := t.2 }

/-- The operation `panel_hx8369_set_gap`: no collaborator is called. -/
def panel_hx8369_set_gap (hx8369 : hx8369_panel_t) (x_gap y_gap : Int) : Outcome :=
  { ret := ESP_OK, panel := { hx8369 with x_gap := x_gap, y_gap := y_gap }, effects := [] }

/-- The operation `panel_hx8369_disp_on_off`. -/
def panel_hx8369_disp_on_off (pf : Platform) (hx8369 : hx8369_panel_t)
    (on_off : Bool) : Outcome :=
  let command : Int := if on_off then LCD_CMD_DISPON else LCD_CMD_DISPOFF
  let t := esp_lcd_panel_io_tx_param pf hx8369.io command [] 0
  { ret := ESP_OK, panel := hx8369, effects := t.2 }

/-! ## Definitions used to state the properties -/

/-- High byte of a 16-bit big-endian pair, as the specification writes it:
`hi(v) = (v >> 8) & 0xFF`. -/
def spec_hi (v : Int) : Nat := (Int.land (Int.shiftRight v 8) 0xFF).toNat

/-- Low byte of a 16-bit big-endian pair, as the specification writes it:
`lo(v) = v & 0xFF`. -/
def spec_lo (v : Int) : Nat := (Int.land v 0xFF).toNat

/-- Byte lengths of the bulk transfers among the given collaborator calls. -/
def tx_color_sizes : List Effect → List Nat
  | [] => []
  | Effect.tx_color _ _ _ n :: es => n :: tx_color_sizes es
  | _ :: es => tx_color_sizes es

/-- A platform on which every collaborator succeeds. -/
def platform_ok : Platform :=
  { calloc_ok := true, gpio_config := fun _ => ESP_OK,
    tx_param := fun _ _ => ESP_OK, tx_color := fun _ _ => ESP_OK }

/-- The handle the board set-up `hx8369_init` creates: reset pin 9, RGB, 16 bits per pixel. -/
def board_panel : hx8369_panel_t :=
  { io := 1, reset_gpio_num := 9, reset_level := false, x_gap := 0, y_gap := 0,
    bits_per_pixel := 16, madctl_val := 0, colmod_cal := 0x55 }

/-! ## Sequences of calls -/

/-- One call of a panel operation on a handle, with its arguments. -/
inductive PanelCall where
  | reset
  | init
  | draw_bitmap (x_start y_start x_end y_end : Int) (color_data : Nat)
  | invert_color (invert_color_data : Bool)
  | mirror (mirror_x mirror_y : Bool)
  | swap_xy (swap_axes : Bool)
  | set_gap (x_gap y_gap : Int)
  | disp_on_off (on_off : Bool)
  deriving DecidableEq, Repr

/-- Dispatch of one call to its operation; `none` when the operation aborts. -/
def do_call (pf : Platform) (hx8369 : hx8369_panel_t) : PanelCall → Option Outcome
  | PanelCall.reset => some (panel_hx8369_reset pf hx8369)
  | PanelCall.init => some (panel_hx8369_init pf hx8369)
  | PanelCall.draw_bitmap x_start y_start x_end y_end color_data =>
      panel_hx8369_draw_bitmap pf hx8369 x_start y_start x_end y_end color_data
  | PanelCall.invert_color b => some (panel_hx8369_invert_color pf hx8369 b)
  | PanelCall.mirror mx my => some (panel_hx8369_mirror pf hx8369 mx my)
  | PanelCall.swap_xy s => some (panel_hx8369_swap_xy pf hx8369 s)
  | PanelCall.set_gap x y => some (panel_hx8369_set_gap hx8369 x y)
  | PanelCall.disp_on_off b => some (panel_hx8369_disp_on_off pf hx8369 b)

/-- One more call after a sequence: the call runs on the handle the sequence
left, its collaborator calls follow the earlier ones, and an abort is final. -/
def then_call (pf : Platform) (acc : Option Outcome) (c : PanelCall) : Option Outcome :=
  match acc with
  | none => none
  | some o =>
    match do_call pf o.panel c with
    | none => none
    | some o2 => some { ret := o2.ret, panel := o2.panel, effects := o.effects ++ o2.effects }

/-- A sequence of calls on a handle, first call first. -/
def run_calls (pf : Platform) (hx8369 : hx8369_panel_t) (calls : List PanelCall) :
    Option Outcome :=
  calls.foldl (then_call pf) (some { ret := ESP_OK, panel := hx8369, effects := [] })

/-- The caller's contract for a call: a drawn region has `x_start < x_end` and
`y_start < y_end`. -/
def PanelCall.valid : PanelCall → Prop
  | PanelCall.draw_bitmap x_start y_start x_end y_end _ => x_start < x_end ∧ y_start < y_end
  | _ => True

/-- Arguments of the most recent `mirror` call of a sequence, if there is one. -/
def last_mirror (calls : List PanelCall) : Option (Bool × Bool) :=
  (calls.filterMap fun c =>
    match c with
    | PanelCall.mirror mx my => some (mx, my)
    | _ => none).getLast?

/-- Argument of the most recent `swap_xy` call of a sequence, if there is one. -/
def last_swap_xy (calls : List PanelCall) : Option Bool :=
  (calls.filterMap fun c =>
    match c with
    | PanelCall.swap_xy s => some s
    | _ => none).getLast?

/-- The byte with the colour-order bit (0x08), the mirror-X bit (0x40), the
mirror-Y bit (0x80) and the swap-axis bit (0x20) set as the flags say, and
every other bit clear. -/
def madctl_bits (bgr mirror_x mirror_y swap_axes : Bool) : Nat :=
  (if bgr then 0x08 else 0) ||| (if mirror_x then 0x40 else 0)
    ||| (if mirror_y then 0x80 else 0) ||| (if swap_axes then 0x20 else 0)

/-- The control register the specification expects after a sequence of calls:
the colour-order bit chosen at creation, OR the mirror-X bit iff the most
recent `mirror` had `mirror_x`, OR the mirror-Y bit iff it had `mirror_y`, OR
the swap-axis bit iff the most recent `swap_xy` had `swap_axes`. -/
def spec_madctl (color_space : Int) (calls : List PanelCall) : Nat :=
  madctl_bits (decide (color_space = ESP_LCD_COLOR_SPACE_BGR))
    (decide ((last_mirror calls).map Prod.fst = some true))
    (decide ((last_mirror calls).map Prod.snd = some true))
    (decide (last_swap_xy calls = some true))

/-- The `pin_bit_mask` the factory configures for a reset pin: `1ULL << reset_gpio_num`. -/
def reset_pin_mask (cfg : esp_lcd_panel_dev_config_t) : Nat :=
  (1 <<< cfg.reset_gpio_num.toNat) % 2 ^ 64

/-- Parameter lists of the bus transactions with command `cmd` among the
given collaborator calls, in order. -/
def params_of (cmd : Int) : List Effect → List (List Nat)
  | [] => []
  | Effect.tx_param _ c param :: es =>
      if c = cmd then param :: params_of cmd es else params_of cmd es
  | _ :: es => params_of cmd es

/-- Modelled from the spec: `ESP_FAIL` of `esp_err.h` (not under src/), the generic failure code. -/
def ESP_FAIL : esp_err_t := -1

/-- A platform whose bus fails every transaction with `ESP_FAIL`. -/
def platform_bus_fails : Platform :=
  { calloc_ok := true, gpio_config := fun _ => ESP_OK,
    tx_param := fun _ _ => ESP_FAIL, tx_color := fun _ _ => ESP_FAIL }

/-- Arguments of the most recent `set_gap` call of a sequence, if there is one. -/
def last_set_gap (calls : List PanelCall) : Option (Int × Int) :=
  (calls.filterMap fun c =>
    match c with
    | PanelCall.set_gap x y => some (x, y)
    | _ => none).getLast?

/-! ## Bytes and words -/

theorem land_255 (v : Int) : Int.land v 0xFF = v % 256 := by
  cases v with
  | ofNat n =>
    show ((n &&& 255 : Nat) : Int) = (n : Int) % 256
    have h := Nat.and_pow_two_sub_one_eq_mod n 8
    norm_num at h
    rw [h]; norm_cast
  | negSucc n =>
    show ((Nat.ldiff 255 n : Nat) : Int) = Int.negSucc n % 256
    have h : Nat.ldiff 255 n = 255 - n % 256 := by
      apply Nat.eq_of_testBit_eq
      intro i
      rw [Nat.testBit_ldiff]
      have h1 : (255 - n % 256) = 2 ^ 8 - (n % 256 + 1) := by omega
      rw [h1, Nat.testBit_two_pow_sub_succ (by omega)]
      have h2 : (255 : Nat) = 2 ^ 8 - 1 := by norm_num
      rw [h2, Nat.testBit_two_pow_sub_one]
      have h3 : n % 256 = n % 2 ^ 8 := by norm_num
      rw [h3, Nat.testBit_mod_two_pow]
      by_cases hi : i < 8 <;> simp [hi]
    rw [h]
    have h4 : Int.negSucc n = -((n : Int) + 1) := Int.negSucc_eq n
    rw [h4]
    omega

theorem shiftRight_8 (v : Int) : Int.shiftRight v 8 = v / 256 := by
  have h := Int.shiftRight_eq_div_pow v 8
  simpa using h

theorem spec_hi_eq (v : Int) : spec_hi v = (v / 256 % 256).toNat := by
  unfold spec_hi
  rw [land_255, shiftRight_8]

theorem spec_lo_eq (v : Int) : spec_lo v = (v % 256).toNat := by
  unfold spec_lo
  rw [land_255]

/-- The high byte the driver sends for an `int` that holds `w`, where `w` and
`v` agree modulo 2^32. -/
theorem hi_byte_of_congr (w v : Int) (h : w % 2 ^ 32 = v % 2 ^ 32) :
    toU8 (Int.land (Int.shiftRight w 8) 0xFF) = spec_hi v := by
  rw [spec_hi_eq, land_255, shiftRight_8]
  unfold toU8
  congr 1
  omega

theorem lo_byte_of_congr (w v : Int) (h : w % 2 ^ 32 = v % 2 ^ 32) :
    toU8 (Int.land w 0xFF) = spec_lo v := by
  rw [spec_lo_eq, land_255]
  unfold toU8
  congr 1
  omega

theorem wrapInt_emod (v : Int) : wrapInt v % 2 ^ 32 = v % 2 ^ 32 := by
  unfold wrapInt
  omega

/-! ## C1: the three transactions of a draw -/

/-- C1: after `set_gap(gx, gy)`, a draw of the region `x1 < x2`, `y1 < y2` emits
exactly three bus transactions in order: CASET (0x2A) with the big-endian bytes
of `x1 + gx` and `x2 - 1 + gx`, RASET (0x2B) with those of `y1 + gy` and
`y2 - 1 + gy`, then one bulk RAMWR (0x2C); and `set_gap(5, 7)` followed by a
draw of `(0, 0, 10, 10)` sends the column bounds (5, 14) and the row bounds
(7, 16). -/
theorem draw_bitmap_emits_window_then_bulk (pf : Platform) (hx8369 : hx8369_panel_t)
    (gx gy x1 y1 x2 y2 : Int) (color_data : Nat) (hx : x1 < x2) (hy : y1 < y2) :
    (∃ len, Option.map Outcome.effects
        (panel_hx8369_draw_bitmap pf (panel_hx8369_set_gap hx8369 gx gy).panel
          x1 y1 x2 y2 color_data)
      = some
        [ Effect.tx_param hx8369.io 0x2A
            [spec_hi (x1 + gx), spec_lo (x1 + gx), spec_hi (x2 - 1 + gx), spec_lo (x2 - 1 + gx)],
          Effect.tx_param hx8369.io 0x2B
            [spec_hi (y1 + gy), spec_lo (y1 + gy), spec_hi (y2 - 1 + gy), spec_lo (y2 - 1 + gy)],
          Effect.tx_color hx8369.io 0x2C color_data len ])
    ∧ (∃ len, Option.map Outcome.effects
        (panel_hx8369_draw_bitmap pf (panel_hx8369_set_gap hx8369 5 7).panel
          0 0 10 10 color_data)
      = some
        [ Effect.tx_param hx8369.io 0x2A [0, 5, 0, 14],
          Effect.tx_param hx8369.io 0x2B [0, 7, 0, 16],
          Effect.tx_color hx8369.io 0x2C color_data len ]) := by
  have key : ∀ (a b c d e f : Int), a < c → b < d →
      Option.map Outcome.effects
        (panel_hx8369_draw_bitmap pf (panel_hx8369_set_gap hx8369 e f).panel a b c d color_data)
      = some
        [ Effect.tx_param hx8369.io 0x2A
            [spec_hi (a + e), spec_lo (a + e), spec_hi (c - 1 + e), spec_lo (c - 1 + e)],
          Effect.tx_param hx8369.io 0x2B
            [spec_hi (b + f), spec_lo (b + f), spec_hi (d - 1 + f), spec_lo (d - 1 + f)],
          Effect.tx_color hx8369.io 0x2C color_data
            (draw_len (wrapInt (a + e)) (wrapInt (b + f)) (wrapInt (c + e)) (wrapInt (d + f))
              hx8369.bits_per_pixel) ] := by
    intro a b c d e f hac hbd
    have e1 : wrapInt (wrapInt (c + e) - 1) % 2 ^ 32 = (c - 1 + e) % 2 ^ 32 := by
      unfold wrapInt; omega
    have e2 : wrapInt (wrapInt (d + f) - 1) % 2 ^ 32 = (d - 1 + f) % 2 ^ 32 := by
      unfold wrapInt; omega
    simp only [panel_hx8369_draw_bitmap, panel_hx8369_set_gap, hac, hbd, and_self, if_true,
      esp_lcd_panel_io_tx_param, esp_lcd_panel_io_tx_color, Option.map_some',
      LCD_CMD_CASET, LCD_CMD_RASET, LCD_CMD_RAMWR,
      hi_byte_of_congr _ _ (wrapInt_emod (a + e)), lo_byte_of_congr _ _ (wrapInt_emod (a + e)),
      hi_byte_of_congr _ _ (wrapInt_emod (b + f)), lo_byte_of_congr _ _ (wrapInt_emod (b + f)),
      hi_byte_of_congr _ _ e1, lo_byte_of_congr _ _ e2,
      hi_byte_of_congr _ _ e2, lo_byte_of_congr _ _ e1]
    rfl
  constructor
  · exact ⟨_, key x1 y1 x2 y2 gx gy hx hy⟩
  · have h := key 0 0 10 10 5 7 (by decide) (by decide)
    simp only [spec_hi_eq, spec_lo_eq] at h
    exact ⟨_, h⟩

/-- Witness of C1 on the board handle: gap (5, 7), region (0, 0, 10, 10). -/
theorem draw_bitmap_emits_window_then_bulk_witness :
    ((0 : Int) < 10 ∧ (0 : Int) < 10) ∧
    ∃ len, Option.map Outcome.effects
        (panel_hx8369_draw_bitmap platform_ok (panel_hx8369_set_gap board_panel 5 7).panel
          0 0 10 10 0)
      = some
        [ Effect.tx_param board_panel.io 0x2A [0, 5, 0, 14],
          Effect.tx_param board_panel.io 0x2B [0, 7, 0, 16],
          Effect.tx_color board_panel.io 0x2C 0 len ] :=
  ⟨by decide,
   (draw_bitmap_emits_window_then_bulk platform_ok board_panel 5 7 0 0 10 10 0
      (by decide) (by decide)).2⟩

/-! ## C2: the byte length of the bulk transfer -/

theorem wrapInt_sub_emod (a b g : Int) :
    wrapInt (wrapInt (a + g) - wrapInt (b + g)) % 2 ^ 32 = (a - b) % 2 ^ 32 := by
  unfold wrapInt
  omega

/-- The length the driver computes, in closed form: the gaps cancel and the
product is taken modulo 2^32. -/
theorem draw_len_closed (x1 y1 x2 y2 gx gy : Int) (bpp : Nat) :
    draw_len (wrapInt (x1 + gx)) (wrapInt (y1 + gy)) (wrapInt (x2 + gx)) (wrapInt (y2 + gy)) bpp
      = ((x2 - x1) * (y2 - y1) % 2 ^ 32).toNat * bpp % 2 ^ 32 / 8 := by
  unfold draw_len toU32
  rw [wrapInt_emod, Int.mul_emod, wrapInt_sub_emod, wrapInt_sub_emod, ← Int.mul_emod]

theorem draw_bitmap_sizes (pf : Platform) (hx8369 : hx8369_panel_t)
    (x1 y1 x2 y2 : Int) (color_data : Nat) (hx : x1 < x2) (hy : y1 < y2) :
    Option.map (fun o => tx_color_sizes o.effects)
        (panel_hx8369_draw_bitmap pf hx8369 x1 y1 x2 y2 color_data)
      = some [((x2 - x1) * (y2 - y1) % 2 ^ 32).toNat * hx8369.bits_per_pixel % 2 ^ 32 / 8] := by
  simp only [panel_hx8369_draw_bitmap, hx, hy, and_self, if_true, Option.map_some',
    esp_lcd_panel_io_tx_param, esp_lcd_panel_io_tx_color, List.cons_append, List.nil_append,
    tx_color_sizes, draw_len_closed]

/-- C2 (as amended): for a handle with 16 or 18 bits per pixel, any gaps and a
region `x1 < x2`, `y1 < y2` whose size `(x2-x1)*(y2-y1)*bits_per_pixel` is below
2^32, the byte length passed to the bulk transfer is exactly
`(x2-x1)*(y2-y1)*bits_per_pixel/8`; and for every region the length is the same
whatever gaps are set. -/
theorem draw_bitmap_bulk_length (pf : Platform) (hx8369 : hx8369_panel_t)
    (x1 y1 x2 y2 : Int) (color_data : Nat) (hx : x1 < x2) (hy : y1 < y2)
    (hbpp : hx8369.bits_per_pixel = 16 ∨ hx8369.bits_per_pixel = 18)
    (hfit : (x2 - x1) * (y2 - y1) * (hx8369.bits_per_pixel : Int) < 2 ^ 32) :
    Option.map (fun o => tx_color_sizes o.effects)
        (panel_hx8369_draw_bitmap pf hx8369 x1 y1 x2 y2 color_data)
      = some [((x2 - x1) * (y2 - y1) * (hx8369.bits_per_pixel : Int) / 8).toNat]
    ∧ ∀ gx gy : Int,
      Option.map (fun o => tx_color_sizes o.effects)
          (panel_hx8369_draw_bitmap pf (panel_hx8369_set_gap hx8369 gx gy).panel
            x1 y1 x2 y2 color_data)
        = Option.map (fun o => tx_color_sizes o.effects)
          (panel_hx8369_draw_bitmap pf hx8369 x1 y1 x2 y2 color_data) := by
  constructor
  · rw [draw_bitmap_sizes pf hx8369 x1 y1 x2 y2 color_data hx hy]
    have hP : 0 < (x2 - x1) * (y2 - y1) := mul_pos (by omega) (by omega)
    have hb : (1 : Int) ≤ (hx8369.bits_per_pixel : Int) := by
      rcases hbpp with h | h <;> rw [h] <;> norm_num
    have hle : (x2 - x1) * (y2 - y1) ≤ (x2 - x1) * (y2 - y1) * (hx8369.bits_per_pixel : Int) :=
      le_mul_of_one_le_right (le_of_lt hP) hb
    obtain ⟨n, hn⟩ := Int.eq_ofNat_of_zero_le (le_of_lt hP)
    rw [hn] at hfit hle ⊢
    have h1 : (n : Int) % 2 ^ 32 = (n : Int) := Int.emod_eq_of_lt (by omega) (by omega)
    have h2 : n * hx8369.bits_per_pixel < 2 ^ 32 := by exact_mod_cast hfit
    rw [h1, Int.toNat_ofNat, Nat.mod_eq_of_lt h2]
    have h3 : (n : Int) * (hx8369.bits_per_pixel : Int) / 8
        = ((n * hx8369.bits_per_pixel / 8 : Nat) : Int) := by push_cast; rfl
    rw [h3, Int.toNat_ofNat]
  · intro gx gy
    rw [draw_bitmap_sizes pf hx8369 x1 y1 x2 y2 color_data hx hy,
      draw_bitmap_sizes pf _ x1 y1 x2 y2 color_data hx hy]
    rfl

/-- Witness of C2 on the board handle: the full 800 x 480 screen at 16 bits per pixel. -/
theorem draw_bitmap_bulk_length_witness :
    Option.map (fun o => tx_color_sizes o.effects)
        (panel_hx8369_draw_bitmap platform_ok board_panel 0 0 800 480 0)
      = some [768000] :=
  (draw_bitmap_bulk_length platform_ok board_panel 0 0 800 480 0
    (by decide) (by decide) (by decide) (by decide)).1

/-- C2 as stated fails: for the region (0, 0, 32768, 32768) at 16 bits per pixel
and gaps 0 the driver passes length 0, not `32768*32768*16/8 = 2147483648`. -/
theorem draw_bitmap_bulk_length_overflow :
    Option.map (fun o => tx_color_sizes o.effects)
        (panel_hx8369_draw_bitmap platform_ok board_panel 0 0 32768 32768 0)
      = some [0]
    ∧ Option.map (fun o => tx_color_sizes o.effects)
        (panel_hx8369_draw_bitmap platform_ok board_panel 0 0 32768 32768 0)
      ≠ some [((32768 - 0) * (32768 - 0) * (board_panel.bits_per_pixel : Int) / 8).toNat] := by
  have h := draw_bitmap_sizes platform_ok board_panel 0 0 32768 32768 0 (by decide) (by decide)
  have e : ((32768 - 0) * (32768 - 0) % 2 ^ 32 : Int).toNat * board_panel.bits_per_pixel
      % 2 ^ 32 / 8 = 0 := by decide
  rw [e] at h
  refine ⟨h, ?_⟩
  rw [h]
  decide

/-! ## C3: mirror and swap_xy update one bit each -/

theorem toU8_lt (v : Int) : toU8 v < 256 := by
  unfold toU8
  omega

theorem toU8_natCast (n : Nat) (h : n < 256) : toU8 (n : Int) = n := by
  unfold toU8
  omega

/-- The store `madctl_val |= b` on a `uint8_t`. -/
theorem or_bit_val (m b : Nat) (hm : m < 256) (hb : b < 256) :
    toU8 (Int.lor (m : Int) (b : Int)) = m ||| b := by
  have h : Int.lor (m : Int) (b : Int) = ((m ||| b : Nat) : Int) := rfl
  rw [h]
  exact toU8_natCast _ (Nat.or_lt_two_pow (n := 8) hm hb)

/-- The store `madctl_val &= ~b` on a `uint8_t`. -/
theorem clear_bit_val (m b : Nat) (hm : m < 256) :
    toU8 (Int.land (m : Int) (Int.lnot (b : Int))) = Nat.ldiff m b := by
  have h : Int.land (m : Int) (Int.lnot (b : Int)) = ((Nat.ldiff m b : Nat) : Int) := rfl
  rw [h]
  apply toU8_natCast
  apply Nat.lt_pow_two_of_testBit (n := 8)
  intro i hi
  rw [Nat.testBit_ldiff]
  have : m.testBit i = false :=
    Nat.testBit_lt_two_pow
      (lt_of_lt_of_le hm (Nat.pow_le_pow_right (n := 2) (by norm_num) hi))
  simp [this]

/-- Bits of a `uint8_t` after `|= 2^k` (when `set`) or `&= ~2^k` (otherwise). -/
theorem assign_bit_testBit (m k : Nat) (set : Bool) (hm : m < 256) (hk : k < 8) (i : Nat) :
    (if set then toU8 (Int.lor (m : Int) ((2 ^ k : Nat) : Int))
      else toU8 (Int.land (m : Int) (Int.lnot ((2 ^ k : Nat) : Int)))).testBit i
      = if i = k then set else m.testBit i := by
  have hb : 2 ^ k < 256 := by
    have : 2 ^ k < 2 ^ 8 := Nat.pow_lt_pow_right (by norm_num) hk
    simpa using this
  cases set
  · simp only [Bool.false_eq_true, if_false]
    rw [clear_bit_val m _ hm, Nat.testBit_ldiff, Nat.testBit_two_pow]
    by_cases h : i = k
    · simp [h]
    · have : ¬ k = i := fun e => h e.symm
      simp [h, this]
  · simp only [if_true]
    rw [or_bit_val m _ hm hb, Nat.testBit_or, Nat.testBit_two_pow]
    by_cases h : i = k
    · simp [h]
    · have : ¬ k = i := fun e => h e.symm
      simp [h, this]

/-- C3: on a handle whose control register holds the byte `m`, `mirror(mx, my)`
leaves it equal to `m` with bit 6 (0x40, mirror-X) set iff `mx`, bit 7 (0x80,
mirror-Y) set iff `my` and every other bit as in `m`; `swap_xy(s)` leaves it
equal to `m` with bit 5 (0x20, swap-axis) set iff `s` and every other bit as in
`m`; each call emits exactly one MADCTL (0x36) transaction whose single
parameter is the updated value, and changes no other field. -/
theorem mirror_and_swap_xy_update_madctl (pf : Platform) (hx8369 : hx8369_panel_t)
    (mirror_x mirror_y swap_axes : Bool) (hm : hx8369.madctl_val < 256) :
    (∃ v, (∀ i, v.testBit i = if i = 6 then mirror_x else if i = 7 then mirror_y
              else hx8369.madctl_val.testBit i)
        ∧ panel_hx8369_mirror pf hx8369 mirror_x mirror_y
          = { ret := ESP_OK, panel := { hx8369 with madctl_val := v },
              effects := [Effect.tx_param hx8369.io 0x36 [v]] })
    ∧ (∃ v, (∀ i, v.testBit i = if i = 5 then swap_axes else hx8369.madctl_val.testBit i)
        ∧ panel_hx8369_swap_xy pf hx8369 swap_axes
          = { ret := ESP_OK, panel := { hx8369 with madctl_val := v },
              effects := [Effect.tx_param hx8369.io 0x36 [v]] }) := by
  constructor
  · refine ⟨(panel_hx8369_mirror pf hx8369 mirror_x mirror_y).panel.madctl_val, ?_, ?_⟩
    · intro i
      have hx := assign_bit_testBit hx8369.madctl_val 6 mirror_x hm (by norm_num)
      have hlt : (if mirror_x then toU8 (Int.lor (hx8369.madctl_val : Int) ((2 ^ 6 : Nat) : Int))
          else toU8 (Int.land (hx8369.madctl_val : Int) (Int.lnot ((2 ^ 6 : Nat) : Int)))) < 256 := by
        split <;> exact toU8_lt _
      have hy := assign_bit_testBit _ 7 mirror_y hlt (by norm_num) i
      have e : (panel_hx8369_mirror pf hx8369 mirror_x mirror_y).panel.madctl_val
          = (if mirror_y then toU8 (Int.lor
                ((if mirror_x then toU8 (Int.lor (hx8369.madctl_val : Int) ((2 ^ 6 : Nat) : Int))
                  else toU8 (Int.land (hx8369.madctl_val : Int) (Int.lnot ((2 ^ 6 : Nat) : Int))) : Nat) : Int)
                ((2 ^ 7 : Nat) : Int))
              else toU8 (Int.land
                ((if mirror_x then toU8 (Int.lor (hx8369.madctl_val : Int) ((2 ^ 6 : Nat) : Int))
                  else toU8 (Int.land (hx8369.madctl_val : Int) (Int.lnot ((2 ^ 6 : Nat) : Int))) : Nat) : Int)
                (Int.lnot ((2 ^ 7 : Nat) : Int)))) := by
        cases mirror_x <;> cases mirror_y <;> rfl
      rw [e, hy, hx i]
      by_cases h6 : i = 6
      · subst h6; simp
      · simp [h6]
    · cases mirror_x <;> cases mirror_y <;> rfl
  · refine ⟨(panel_hx8369_swap_xy pf hx8369 swap_axes).panel.madctl_val, ?_, ?_⟩
    · intro i
      have hs := assign_bit_testBit hx8369.madctl_val 5 swap_axes hm (by norm_num) i
      have e : (panel_hx8369_swap_xy pf hx8369 swap_axes).panel.madctl_val
          = (if swap_axes then toU8 (Int.lor (hx8369.madctl_val : Int) ((2 ^ 5 : Nat) : Int))
              else toU8 (Int.land (hx8369.madctl_val : Int) (Int.lnot ((2 ^ 5 : Nat) : Int)))) := by
        cases swap_axes <;> rfl
      rw [e, hs]
    · cases swap_axes <;> rfl

/-- Witness of C3: the board handle with the colour-order bit set, `mirror(true, false)`
and `swap_xy(true)`. -/
theorem mirror_and_swap_xy_update_madctl_witness :
    (8 : Nat) < 256 ∧
    (∃ v, (∀ i, v.testBit i = if i = 6 then true else if i = 7 then false
              else (8 : Nat).testBit i)
        ∧ panel_hx8369_mirror platform_ok { board_panel with madctl_val := 8 } true false
          = { ret := ESP_OK, panel := { board_panel with madctl_val := v },
              effects := [Effect.tx_param 1 0x36 [v]] }) :=
  ⟨by decide,
   (mirror_and_swap_xy_update_madctl platform_ok { board_panel with madctl_val := 8 }
      true false true (by decide)).1⟩

/-! ## C5, C6, C7: the factory -/

/-- C5: with a present bus and output slot, colour space RGB or BGR, 16 or 18
bits per pixel, and allocation and reset-pin configuration succeeding, the
factory returns success and a handle with `colmod_cal` 0x55 (16 bpp) or 0x66
(18 bpp), `madctl_val` 0 (RGB) or 0x08 (BGR), both gaps 0, and
`bits_per_pixel`, reset pin and reset polarity taken from the config. -/
theorem new_panel_valid_config (pf : Platform) (io : Nat) (cfg : esp_lcd_panel_dev_config_t)
    (hio : io ≠ 0)
    (hcs : cfg.color_space = ESP_LCD_COLOR_SPACE_RGB ∨ cfg.color_space = ESP_LCD_COLOR_SPACE_BGR)
    (hbpp : cfg.bits_per_pixel = 16 ∨ cfg.bits_per_pixel = 18)
    (halloc : pf.calloc_ok = true)
    (hgpio : cfg.reset_gpio_num ≥ 0 → pf.gpio_config (reset_pin_mask cfg) = ESP_OK) :
    esp_lcd_new_panel_hx8369 pf io (some cfg) true
      = { ret := ESP_OK,
          ret_panel := some
            { io := io,
              reset_gpio_num := cfg.reset_gpio_num,
              reset_level := cfg.reset_active_high,
              x_gap := 0,
              y_gap := 0,
              bits_per_pixel := cfg.bits_per_pixel,
              madctl_val := if cfg.color_space = ESP_LCD_COLOR_SPACE_RGB then 0 else 0x08,
              colmod_cal := if cfg.bits_per_pixel = 16 then 0x55 else 0x66 },
          effects :=
            if cfg.reset_gpio_num ≥ 0 then [Effect.gpio_config (reset_pin_mask cfg)] else [] } := by
  have hg : ¬ (cfg.reset_gpio_num ≥ 0 ∧
      pf.gpio_config ((1 <<< cfg.reset_gpio_num.toNat) % 2 ^ 64) ≠ ESP_OK) := by
    rintro ⟨h1, h2⟩
    exact h2 (hgpio h1)
  have hc : ¬ (cfg.color_space ≠ ESP_LCD_COLOR_SPACE_RGB
      ∧ cfg.color_space ≠ ESP_LCD_COLOR_SPACE_BGR) := by
    rintro ⟨h1, h2⟩
    rcases hcs with h | h
    · exact h1 h
    · exact h2 h
  have hb : ¬ (cfg.bits_per_pixel ≠ 16 ∧ cfg.bits_per_pixel ≠ 18) := by
    rintro ⟨h1, h2⟩
    rcases hbpp with h | h
    · exact h1 h
    · exact h2 h
  have hbgr : toU8 (Int.lor (calloc_panel.madctl_val : Int) LCD_CMD_BGR_BIT) = 8 := by decide
  unfold esp_lcd_new_panel_hx8369
  simp only [hio, halloc, hg, hc, hb, hbgr, reset_pin_mask, if_false, false_or,
    Bool.true_eq_false]
  by_cases h1 : cfg.color_space = ESP_LCD_COLOR_SPACE_RGB <;>
    by_cases h2 : cfg.bits_per_pixel = 16 <;> simp [h1, h2, calloc_panel]

/-- Witness of C5: the configuration of the board set-up (reset pin 9, RGB, 16 bpp). -/
theorem new_panel_valid_config_witness :
    esp_lcd_new_panel_hx8369 platform_ok 1
        (some { reset_gpio_num := 9, color_space := ESP_LCD_COLOR_SPACE_RGB,
                bits_per_pixel := 16, reset_active_high := false }) true
      = { ret := ESP_OK, ret_panel := some board_panel,
          effects := [Effect.gpio_config 512] } :=
  new_panel_valid_config platform_ok 1
    { reset_gpio_num := 9, color_space := ESP_LCD_COLOR_SPACE_RGB,
      bits_per_pixel := 16, reset_active_high := false }
    (by decide) (Or.inl rfl) (Or.inl rfl) rfl (fun _ => rfl)

/-- C6: with bus, config and output slot present and allocation and GPIO
configuration succeeding, a colour space that is neither RGB nor BGR, or a
pixel width that is neither 16 nor 18, makes the factory fail with
`ESP_ERR_NOT_SUPPORTED` and leave the output slot unwritten (a configured
reset pin is released again). -/
theorem new_panel_unsupported (pf : Platform) (io : Nat) (cfg : esp_lcd_panel_dev_config_t)
    (hio : io ≠ 0)
    (hbad : (cfg.color_space ≠ ESP_LCD_COLOR_SPACE_RGB
              ∧ cfg.color_space ≠ ESP_LCD_COLOR_SPACE_BGR)
            ∨ (cfg.bits_per_pixel ≠ 16 ∧ cfg.bits_per_pixel ≠ 18))
    (halloc : pf.calloc_ok = true)
    (hgpio : cfg.reset_gpio_num ≥ 0 → pf.gpio_config (reset_pin_mask cfg) = ESP_OK) :
    esp_lcd_new_panel_hx8369 pf io (some cfg) true
      = { ret := ESP_ERR_NOT_SUPPORTED,
          ret_panel := none,
          effects :=
            if cfg.reset_gpio_num ≥ 0 then
              [Effect.gpio_config (reset_pin_mask cfg), Effect.gpio_reset_pin cfg.reset_gpio_num]
            else [] } := by
  have hg : ¬ (cfg.reset_gpio_num ≥ 0 ∧
      pf.gpio_config ((1 <<< cfg.reset_gpio_num.toNat) % 2 ^ 64) ≠ ESP_OK) := by
    rintro ⟨h1, h2⟩
    exact h2 (hgpio h1)
  unfold esp_lcd_new_panel_hx8369
  simp only [hio, halloc, hg, reset_pin_mask, if_false, false_or, Bool.true_eq_false,
    new_panel_err]
  by_cases hpin : cfg.reset_gpio_num ≥ 0 <;>
    by_cases hc : (cfg.color_space ≠ ESP_LCD_COLOR_SPACE_RGB
      ∧ cfg.color_space ≠ ESP_LCD_COLOR_SPACE_BGR)
  · simp [hpin, hc]
  · have hb := hbad.resolve_left hc
    simp [hpin, hc, hb]
  · simp [hpin, hc]
  · have hb := hbad.resolve_left hc
    simp [hpin, hc, hb]

/-- Witness of C6: 24 bits per pixel on the board's reset pin. -/
theorem new_panel_unsupported_witness :
    esp_lcd_new_panel_hx8369 platform_ok 1
        (some { reset_gpio_num := 9, color_space := ESP_LCD_COLOR_SPACE_RGB,
                bits_per_pixel := 24, reset_active_high := false }) true
      = { ret := ESP_ERR_NOT_SUPPORTED, ret_panel := none,
          effects := [Effect.gpio_config 512, Effect.gpio_reset_pin 9] } :=
  new_panel_unsupported platform_ok 1
    { reset_gpio_num := 9, color_space := ESP_LCD_COLOR_SPACE_RGB,
      bits_per_pixel := 24, reset_active_high := false }
    (by decide) (Or.inr ⟨by decide, by decide⟩) rfl (fun _ => rfl)

/-- C7: when the bus or the config is absent the factory fails with
`ESP_ERR_INVALID_ARG`, whatever the other arguments and the platform are,
leaves the output slot unwritten and calls no collaborator (no GPIO
configuration, no GPIO release). -/
theorem new_panel_invalid_arg (pf : Platform) (io : Nat)
    (panel_dev_config : Option esp_lcd_panel_dev_config_t) (ret_panel : Bool)
    (habsent : io = 0 ∨ panel_dev_config = none) :
    esp_lcd_new_panel_hx8369 pf io panel_dev_config ret_panel
      = { ret := ESP_ERR_INVALID_ARG, ret_panel := none, effects := [] } := by
  unfold esp_lcd_new_panel_hx8369
  cases panel_dev_config with
  | none => rfl
  | some cfg =>
    have h0 : io = 0 := by
      rcases habsent with h | h
      · exact h
      · cases h
    simp [h0]

/-- Witness of C7: a NULL bus with a config of unsupported colour space and pixel width. -/
theorem new_panel_invalid_arg_witness :
    esp_lcd_new_panel_hx8369 platform_ok 0
        (some { reset_gpio_num := 9, color_space := 7,
                bits_per_pixel := 24, reset_active_high := false }) true
      = { ret := ESP_ERR_INVALID_ARG, ret_panel := none, effects := [] } :=
  new_panel_invalid_arg platform_ok 0
    (some { reset_gpio_num := 9, color_space := 7,
            bits_per_pixel := 24, reset_active_high := false }) true (Or.inl rfl)

/-! ## C4: the control register after any sequence of calls -/

theorem set_bit_u8 (m k : Nat) (hm : m < 256) (hk : k < 8) :
    toU8 (Int.lor (m : Int) ((2 ^ k : Nat) : Int)) = m ||| 2 ^ k := by
  have hb : 2 ^ k < 256 := by
    have : 2 ^ k < 2 ^ 8 := Nat.pow_lt_pow_right (by norm_num) hk
    simpa using this
  exact or_bit_val m _ hm hb

theorem clear_bit_u8 (m k : Nat) (hm : m < 256) (hk : k < 8) :
    toU8 (Int.land (m : Int) (Int.lnot ((2 ^ k : Nat) : Int))) = m &&& (2 ^ 8 - (2 ^ k + 1)) := by
  have hb : 2 ^ k < 2 ^ 8 := Nat.pow_lt_pow_right (by norm_num) hk
  rw [clear_bit_val m _ hm]
  apply Nat.eq_of_testBit_eq
  intro i
  rw [Nat.testBit_ldiff, Nat.testBit_and, Nat.testBit_two_pow_sub_succ hb]
  by_cases hi : i < 8
  · simp [hi]
  · have h8 : 8 ≤ i := by omega
    have : m.testBit i = false :=
      Nat.testBit_lt_two_pow
        (lt_of_lt_of_le hm (Nat.pow_le_pow_right (n := 2) (by norm_num) h8))
    simp [this]

/-- The control register `mirror` leaves, in closed form. -/
theorem mirror_madctl (pf : Platform) (hx8369 : hx8369_panel_t) (mirror_x mirror_y : Bool)
    (hm : hx8369.madctl_val < 256) :
    (panel_hx8369_mirror pf hx8369 mirror_x mirror_y).panel.madctl_val
      = (if mirror_y then
          (if mirror_x then hx8369.madctl_val ||| 0x40 else hx8369.madctl_val &&& 0xBF) ||| 0x80
         else
          (if mirror_x then hx8369.madctl_val ||| 0x40 else hx8369.madctl_val &&& 0xBF) &&& 0x7F)
    ∧ (panel_hx8369_mirror pf hx8369 mirror_x mirror_y).panel.madctl_val < 256 := by
  have s6 := set_bit_u8 hx8369.madctl_val 6 hm (by norm_num)
  have c6 := clear_bit_u8 hx8369.madctl_val 6 hm (by norm_num)
  have l6s : hx8369.madctl_val ||| 2 ^ 6 < 256 := by rw [← s6]; exact toU8_lt _
  have l6c : hx8369.madctl_val &&& (2 ^ 8 - (2 ^ 6 + 1)) < 256 := by rw [← c6]; exact toU8_lt _
  cases mirror_x <;> cases mirror_y
  · have e : (panel_hx8369_mirror pf hx8369 false false).panel.madctl_val
        = toU8 (Int.land ((toU8 (Int.land (hx8369.madctl_val : Int)
            (Int.lnot ((2 ^ 6 : Nat) : Int))) : Nat) : Int) (Int.lnot ((2 ^ 7 : Nat) : Int))) := rfl
    rw [e, c6, clear_bit_u8 _ 7 l6c (by norm_num)]
    exact ⟨rfl, by rw [← clear_bit_u8 _ 7 l6c (by norm_num)]; exact toU8_lt _⟩
  · have e : (panel_hx8369_mirror pf hx8369 false true).panel.madctl_val
        = toU8 (Int.lor ((toU8 (Int.land (hx8369.madctl_val : Int)
            (Int.lnot ((2 ^ 6 : Nat) : Int))) : Nat) : Int) ((2 ^ 7 : Nat) : Int)) := rfl
    rw [e, c6, set_bit_u8 _ 7 l6c (by norm_num)]
    exact ⟨rfl, by rw [← set_bit_u8 _ 7 l6c (by norm_num)]; exact toU8_lt _⟩
  · have e : (panel_hx8369_mirror pf hx8369 true false).panel.madctl_val
        = toU8 (Int.land ((toU8 (Int.lor (hx8369.madctl_val : Int)
            ((2 ^ 6 : Nat) : Int)) : Nat) : Int) (Int.lnot ((2 ^ 7 : Nat) : Int))) := rfl
    rw [e, s6, clear_bit_u8 _ 7 l6s (by norm_num)]
    exact ⟨rfl, by rw [← clear_bit_u8 _ 7 l6s (by norm_num)]; exact toU8_lt _⟩
  · have e : (panel_hx8369_mirror pf hx8369 true true).panel.madctl_val
        = toU8 (Int.lor ((toU8 (Int.lor (hx8369.madctl_val : Int)
            ((2 ^ 6 : Nat) : Int)) : Nat) : Int) ((2 ^ 7 : Nat) : Int)) := rfl
    rw [e, s6, set_bit_u8 _ 7 l6s (by norm_num)]
    exact ⟨rfl, by rw [← set_bit_u8 _ 7 l6s (by norm_num)]; exact toU8_lt _⟩

/-- The control register `swap_xy` leaves, in closed form. -/
theorem swap_xy_madctl (pf : Platform) (hx8369 : hx8369_panel_t) (swap_axes : Bool)
    (hm : hx8369.madctl_val < 256) :
    (panel_hx8369_swap_xy pf hx8369 swap_axes).panel.madctl_val
      = (if swap_axes then hx8369.madctl_val ||| 0x20 else hx8369.madctl_val &&& 0xDF) := by
  cases swap_axes
  · exact clear_bit_u8 hx8369.madctl_val 5 hm (by norm_num)
  · exact set_bit_u8 hx8369.madctl_val 5 hm (by norm_num)

theorem madctl_bits_lt (g x y s : Bool) : madctl_bits g x y s < 256 := by
  revert g x y s
  decide

theorem madctl_bits_mirror : ∀ g x y s a b : Bool,
    (if b then (if a then madctl_bits g x y s ||| 0x40 else madctl_bits g x y s &&& 0xBF) ||| 0x80
     else (if a then madctl_bits g x y s ||| 0x40 else madctl_bits g x y s &&& 0xBF) &&& 0x7F)
      = madctl_bits g a b s := by
  decide

theorem madctl_bits_swap_xy : ∀ g x y s a : Bool,
    (if a then madctl_bits g x y s ||| 0x20 else madctl_bits g x y s &&& 0xDF)
      = madctl_bits g x y a := by
  decide

theorem run_calls_snoc (pf : Platform) (hx8369 : hx8369_panel_t) (cs : List PanelCall)
    (c : PanelCall) :
    run_calls pf hx8369 (cs ++ [c]) = then_call pf (run_calls pf hx8369 cs) c := by
  simp [run_calls, List.foldl_append]

theorem last_mirror_snoc (cs : List PanelCall) (c : PanelCall) :
    last_mirror (cs ++ [c])
      = match c with
        | PanelCall.mirror mx my => some (mx, my)
        | _ => last_mirror cs := by
  unfold last_mirror
  rw [List.filterMap_append]
  cases c <;> simp [List.filterMap_cons]

theorem last_swap_xy_snoc (cs : List PanelCall) (c : PanelCall) :
    last_swap_xy (cs ++ [c])
      = match c with
        | PanelCall.swap_xy s => some s
        | _ => last_swap_xy cs := by
  unfold last_swap_xy
  rw [List.filterMap_append]
  cases c <;> simp [List.filterMap_cons]

theorem reset_panel (pf : Platform) (hx8369 : hx8369_panel_t) :
    (panel_hx8369_reset pf hx8369).panel = hx8369 := by
  unfold panel_hx8369_reset
  split <;> rfl

/-- Every operation but `mirror` and `swap_xy` leaves the control register as it was. -/
theorem do_call_madctl_frame (pf : Platform) (hx8369 : hx8369_panel_t) (c : PanelCall)
    (hc : c.valid) (hm : ∀ mx my, c ≠ PanelCall.mirror mx my)
    (hs : ∀ s, c ≠ PanelCall.swap_xy s) :
    ∃ o, do_call pf hx8369 c = some o ∧ o.panel.madctl_val = hx8369.madctl_val := by
  cases c with
  | reset => exact ⟨_, rfl, by rw [reset_panel]⟩
  | init => exact ⟨_, rfl, rfl⟩
  | draw_bitmap x1 y1 x2 y2 d =>
    have hc2 : x1 < x2 ∧ y1 < y2 := hc
    show ∃ o, panel_hx8369_draw_bitmap pf hx8369 x1 y1 x2 y2 d = some o
      ∧ o.panel.madctl_val = hx8369.madctl_val
    unfold panel_hx8369_draw_bitmap
    rw [if_pos hc2]
    exact ⟨_, rfl, rfl⟩
  | invert_color b => exact ⟨_, rfl, rfl⟩
  | mirror mx my => exact absurd rfl (hm mx my)
  | swap_xy s => exact absurd rfl (hs s)
  | set_gap x y => exact ⟨_, rfl, rfl⟩
  | disp_on_off b => exact ⟨_, rfl, rfl⟩

/-- Invariant of the control register along a sequence of calls. -/
theorem run_calls_madctl (pf : Platform) (hx8369 : hx8369_panel_t) (color_space : Int)
    (h0 : hx8369.madctl_val
        = madctl_bits (decide (color_space = ESP_LCD_COLOR_SPACE_BGR)) false false false)
    (calls : List PanelCall) (hv : ∀ c ∈ calls, c.valid) :
    ∃ o, run_calls pf hx8369 calls = some o
      ∧ o.panel.madctl_val = spec_madctl color_space calls := by
  induction calls using List.reverseRecOn with
  | nil => exact ⟨_, rfl, h0⟩
  | append_singleton cs c ih =>
    obtain ⟨o, ho, hmo⟩ := ih (fun d hd => hv d (List.mem_append_left _ hd))
    have hc : c.valid := hv c (by simp)
    have hlt : o.panel.madctl_val < 256 := by rw [hmo]; exact madctl_bits_lt _ _ _ _
    rw [run_calls_snoc, ho]
    by_cases hmir : ∃ mx my, c = PanelCall.mirror mx my
    · obtain ⟨mx, my, rfl⟩ := hmir
      refine ⟨_, rfl, ?_⟩
      show (panel_hx8369_mirror pf o.panel mx my).panel.madctl_val = _
      rw [(mirror_madctl pf o.panel mx my hlt).1, hmo]
      unfold spec_madctl
      rw [madctl_bits_mirror, last_mirror_snoc, last_swap_xy_snoc]
      cases mx <;> cases my <;> rfl
    · by_cases hswp : ∃ s, c = PanelCall.swap_xy s
      · obtain ⟨s, rfl⟩ := hswp
        refine ⟨_, rfl, ?_⟩
        show (panel_hx8369_swap_xy pf o.panel s).panel.madctl_val = _
        rw [swap_xy_madctl pf o.panel s hlt, hmo]
        unfold spec_madctl
        rw [madctl_bits_swap_xy, last_mirror_snoc, last_swap_xy_snoc]
        cases s <;> rfl
      · have hm : ∀ mx my, c ≠ PanelCall.mirror mx my := fun mx my e => hmir ⟨mx, my, e⟩
        have hs : ∀ s, c ≠ PanelCall.swap_xy s := fun s e => hswp ⟨s, e⟩
        obtain ⟨o2, ho2, hm2⟩ := do_call_madctl_frame pf o.panel c hc hm hs
        refine ⟨{ ret := o2.ret, panel := o2.panel, effects := o.effects ++ o2.effects }, ?_, ?_⟩
        · simp only [then_call, ho2]
        · show o2.panel.madctl_val = _
          rw [hm2, hmo]
          unfold spec_madctl
          rw [last_mirror_snoc, last_swap_xy_snoc]
          cases c with
          | mirror mx my => exact absurd rfl (hm mx my)
          | swap_xy s => exact absurd rfl (hs s)
          | _ => rfl

/-- The control register of a handle the factory returned holds the colour-order bit only. -/
theorem new_panel_madctl (pf : Platform) (io : Nat) (cfg : esp_lcd_panel_dev_config_t)
    (ret_panel : Bool) (hx8369 : hx8369_panel_t)
    (hnew : (esp_lcd_new_panel_hx8369 pf io (some cfg) ret_panel).ret_panel = some hx8369) :
    hx8369.madctl_val
      = madctl_bits (decide (cfg.color_space = ESP_LCD_COLOR_SPACE_BGR)) false false false := by
  have hbgr : toU8 (Int.lor (calloc_panel.madctl_val : Int) LCD_CMD_BGR_BIT) = 8 := by decide
  unfold esp_lcd_new_panel_hx8369 at hnew
  by_cases h1 : io = 0 ∨ ret_panel = false
  · simp only [if_pos h1] at hnew
    cases hnew
  by_cases h2 : pf.calloc_ok = false
  · simp only [if_neg h1, if_pos h2] at hnew
    cases hnew
  by_cases h3 : cfg.reset_gpio_num ≥ 0 ∧
      pf.gpio_config ((1 <<< cfg.reset_gpio_num.toNat) % 2 ^ 64) ≠ ESP_OK
  · simp only [if_neg h1, if_neg h2, if_pos h3, new_panel_err] at hnew
    cases hnew
  by_cases h4 : cfg.color_space ≠ ESP_LCD_COLOR_SPACE_RGB
      ∧ cfg.color_space ≠ ESP_LCD_COLOR_SPACE_BGR
  · simp only [if_neg h1, if_neg h2, if_neg h3, if_pos h4, new_panel_err] at hnew
    cases hnew
  by_cases h5 : cfg.bits_per_pixel ≠ 16 ∧ cfg.bits_per_pixel ≠ 18
  · simp only [if_neg h1, if_neg h2, if_neg h3, if_neg h4, if_pos h5, new_panel_err] at hnew
    cases hnew
  simp only [if_neg h1, if_neg h2, if_neg h3, if_neg h4, if_neg h5, hbgr,
    Option.some.injEq] at hnew
  rw [← hnew]
  by_cases h6 : cfg.color_space = ESP_LCD_COLOR_SPACE_RGB
  · have e : ¬ cfg.color_space = ESP_LCD_COLOR_SPACE_BGR := by
      rw [h6]; decide
    simp only [if_pos h6, e, decide_False]
    split <;> rfl
  · have e : cfg.color_space = ESP_LCD_COLOR_SPACE_BGR := by
      by_contra hne
      exact h4 ⟨h6, hne⟩
    simp only [if_neg h6, e, decide_True]
    split <;> rfl

/-- C4: on a handle the factory returned, after any finite sequence of
`mirror`, `swap_xy`, `set_gap`, `draw_bitmap`, `invert_color`, `disp_on_off`,
`reset` and `init` calls (drawn regions within the caller's contract) the
control register is the colour-order bit chosen at creation, OR the mirror-X
bit iff the most recent `mirror` had `mirror_x`, OR the mirror-Y bit iff it had
`mirror_y`, OR the swap-axis bit iff the most recent `swap_xy` had `swap_axes`.
In particular `mirror(true, false)` then `swap_xy(true)` gives mirror-X (bit 6)
and swap-axis (bit 5) set and mirror-Y (bit 7) clear, and the same register as
the two calls in the other order. -/
theorem madctl_after_calls (pf : Platform) (io : Nat) (cfg : esp_lcd_panel_dev_config_t)
    (ret_panel : Bool) (hx8369 : hx8369_panel_t) (calls : List PanelCall)
    (hnew : (esp_lcd_new_panel_hx8369 pf io (some cfg) ret_panel).ret_panel = some hx8369)
    (hv : ∀ c ∈ calls, c.valid) :
    (∃ o, run_calls pf hx8369 calls = some o
        ∧ o.panel.madctl_val = spec_madctl cfg.color_space calls)
    ∧ (∃ o1 o2,
        run_calls pf hx8369 [PanelCall.mirror true false, PanelCall.swap_xy true] = some o1
        ∧ run_calls pf hx8369 [PanelCall.swap_xy true, PanelCall.mirror true false] = some o2
        ∧ o1.panel.madctl_val = o2.panel.madctl_val
        ∧ o1.panel.madctl_val.testBit 6 = true
        ∧ o1.panel.madctl_val.testBit 5 = true
        ∧ o1.panel.madctl_val.testBit 7 = false) := by
  have h0 := new_panel_madctl pf io cfg ret_panel hx8369 hnew
  refine ⟨run_calls_madctl pf hx8369 cfg.color_space h0 calls hv, ?_⟩
  obtain ⟨o1, ho1, hm1⟩ := run_calls_madctl pf hx8369 cfg.color_space h0
    [PanelCall.mirror true false, PanelCall.swap_xy true] (by
      intro c hc
      simp only [List.mem_cons, List.mem_singleton, List.not_mem_nil, or_false] at hc
      rcases hc with h | h <;> subst h <;> simp [PanelCall.valid])
  obtain ⟨o2, ho2, hm2⟩ := run_calls_madctl pf hx8369 cfg.color_space h0
    [PanelCall.swap_xy true, PanelCall.mirror true false] (by
      intro c hc
      simp only [List.mem_cons, List.mem_singleton, List.not_mem_nil, or_false] at hc
      rcases hc with h | h <;> subst h <;> simp [PanelCall.valid])
  have e1 : spec_madctl cfg.color_space [PanelCall.mirror true false, PanelCall.swap_xy true]
      = madctl_bits (decide (cfg.color_space = ESP_LCD_COLOR_SPACE_BGR)) true false true := rfl
  have e2 : spec_madctl cfg.color_space [PanelCall.swap_xy true, PanelCall.mirror true false]
      = madctl_bits (decide (cfg.color_space = ESP_LCD_COLOR_SPACE_BGR)) true false true := rfl
  refine ⟨o1, o2, ho1, ho2, ?_, ?_, ?_, ?_⟩
  · rw [hm1, hm2, e1, e2]
  · rw [hm1, e1]
    cases decide (cfg.color_space = ESP_LCD_COLOR_SPACE_BGR) <;> decide
  · rw [hm1, e1]
    cases decide (cfg.color_space = ESP_LCD_COLOR_SPACE_BGR) <;> decide
  · rw [hm1, e1]
    cases decide (cfg.color_space = ESP_LCD_COLOR_SPACE_BGR) <;> decide

/-- Witness of C4: the board handle, `mirror(true, false)`, `swap_xy(true)`, a draw,
then `mirror(false, true)`: the register ends as mirror-Y OR swap-axis, 0xA0. -/
theorem madctl_after_calls_witness :
    (esp_lcd_new_panel_hx8369 platform_ok 1
        (some { reset_gpio_num := 9, color_space := ESP_LCD_COLOR_SPACE_RGB,
                bits_per_pixel := 16, reset_active_high := false }) true).ret_panel
      = some board_panel
    ∧ ∃ o, run_calls platform_ok board_panel
          [PanelCall.mirror true false, PanelCall.swap_xy true,
           PanelCall.draw_bitmap 0 0 10 10 0, PanelCall.mirror false true] = some o
        ∧ o.panel.madctl_val = 0xA0 :=
  ⟨by decide,
   (madctl_after_calls platform_ok 1
      { reset_gpio_num := 9, color_space := ESP_LCD_COLOR_SPACE_RGB,
        bits_per_pixel := 16, reset_active_high := false }
      true board_panel
      [PanelCall.mirror true false, PanelCall.swap_xy true,
       PanelCall.draw_bitmap 0 0 10 10 0, PanelCall.mirror false true]
      (by decide)
      (by
        intro c hc
        simp only [List.mem_cons, List.mem_singleton, List.not_mem_nil, or_false] at hc
        rcases hc with h | h | h | h <;> subst h <;> simp [PanelCall.valid])).1⟩

/-! ## C8: the colour-set table -/

set_option maxRecDepth 100000

/-- C8: `init` sends one colour-set (0x2D) transaction; its table has exactly
192 bytes and entry `i` is `(i*8) mod 256` for `i` in [0,63] or [128,191] and
`(i*4) mod 256` for `i` in [64,127]; entry 32 is 0 and entry 191 is 0xF8. -/
theorem init_colour_set_table (pf : Platform) (hx8369 : hx8369_panel_t) :
    params_of 0x2D (panel_hx8369_init pf hx8369).effects = [cmd_192]
    ∧ cmd_192.length = 192
    ∧ (∀ i : Fin 192, cmd_192[i.val]?
        = some (if i.val ≤ 63 ∨ 128 ≤ i.val then i.val * 8 % 256 else i.val * 4 % 256))
    ∧ cmd_192[32]? = some 0
    ∧ cmd_192[191]? = some 0xF8 := by
  refine ⟨?_, ?_, ?_, ?_, ?_⟩
  · have h : List.take 192 cmd_192 = cmd_192 := by decide
    simp only [panel_hx8369_init, esp_lcd_panel_io_tx_param, h, List.cons_append,
      List.nil_append, params_of, LCD_CMD_SLPOUT, LCD_CMD_MADCTL, LCD_CMD_COLMOD]
    norm_num
  · decide
  · decide
  · decide
  · decide

/-! ## C9: reset -/

/-- C9: with a reset pin (`reset_gpio_num >= 0`) `reset` makes exactly the calls
set-level(pin, active level), wait 10 ms, set-level(pin, inactive level), wait
10 ms and no bus transaction; without one it makes exactly the calls
software-reset (0x01) with no parameter, wait 20 ms and no GPIO call.  In both
cases it returns `ESP_OK` and leaves the handle unchanged. -/
theorem reset_effects (pf : Platform) (hx8369 : hx8369_panel_t) :
    panel_hx8369_reset pf hx8369
      = { ret := ESP_OK,
          panel := hx8369,
          effects :=
            if hx8369.reset_gpio_num ≥ 0 then
              [ Effect.gpio_set_level hx8369.reset_gpio_num (if hx8369.reset_level then 1 else 0),
                Effect.delay_ms 10,
                Effect.gpio_set_level hx8369.reset_gpio_num (if hx8369.reset_level then 0 else 1),
                Effect.delay_ms 10 ]
            else
              [ Effect.tx_param hx8369.io 0x01 [], Effect.delay_ms 20 ] } := by
  unfold panel_hx8369_reset
  by_cases h : hx8369.reset_gpio_num ≥ 0
  · rw [if_pos h, if_pos h]
    cases hx8369.reset_level <;> rfl
  · rw [if_neg h, if_neg h]
    rfl

/-! ## C10: the transactions of init -/

/-- C10: `init` emits the transactions 0xB9, 0xB1, 0xB2, 0xB4, 0xB6, 0xD5, 0xE0,
0xC1, 0x2D in that order, with 3, 19, 15, 5, 2, 26, 34, 127 and 192 parameter
bytes, then exit-sleep (0x11) with no parameter, a wait of 100 ms, MADCTL
(0x36) with the handle's `madctl_val` and COLMOD (0x3A) with its `colmod_cal`,
nothing else; it returns `ESP_OK` and leaves the handle unchanged. -/
theorem init_effects (pf : Platform) (hx8369 : hx8369_panel_t) :
    panel_hx8369_init pf hx8369
      = { ret := ESP_OK,
          panel := hx8369,
          effects :=
            [ Effect.tx_param hx8369.io 0xB9 param_B9,
              Effect.tx_param hx8369.io 0xB1 param_B1,
              Effect.tx_param hx8369.io 0xB2 param_B2,
              Effect.tx_param hx8369.io 0xB4 param_B4,
              Effect.tx_param hx8369.io 0xB6 param_B6,
              Effect.tx_param hx8369.io 0xD5 param_D5,
              Effect.tx_param hx8369.io 0xE0 param_E0,
              Effect.tx_param hx8369.io 0xC1 param_C1,
              Effect.tx_param hx8369.io 0x2D cmd_192,
              Effect.tx_param hx8369.io 0x11 [],
              Effect.delay_ms 100,
              Effect.tx_param hx8369.io 0x36 [hx8369.madctl_val],
              Effect.tx_param hx8369.io 0x3A [hx8369.colmod_cal] ] }
    ∧ param_B9.length = 3 ∧ param_B1.length = 19 ∧ param_B2.length = 15
    ∧ param_B4.length = 5 ∧ param_B6.length = 2 ∧ param_D5.length = 26
    ∧ param_E0.length = 34 ∧ param_C1.length = 127 ∧ cmd_192.length = 192 := by
  have h192 : List.take 192 cmd_192 = cmd_192 := by decide
  have hC1 : List.take 127 param_C1 = param_C1 := by decide
  refine ⟨?_, by decide, by decide, by decide, by decide, by decide, by decide, by decide,
    by decide, by decide⟩
  simp only [panel_hx8369_init, esp_lcd_panel_io_tx_param, h192, hC1, List.cons_append,
    List.nil_append, LCD_CMD_SLPOUT, LCD_CMD_MADCTL, LCD_CMD_COLMOD]
  rfl

/-! ## C11: bus failures during init -/

/-- C11 (as amended): `init` discards the code of every bus transaction:
whatever the bus answers, failures included, it returns `ESP_OK`, leaves the
handle unchanged and issues the same full sequence of collaborator calls as on
a bus where every transaction succeeds. -/
theorem init_discards_bus_results (pf : Platform) (hx8369 : hx8369_panel_t) :
    (panel_hx8369_init pf hx8369).ret = ESP_OK
    ∧ (panel_hx8369_init pf hx8369).panel = hx8369
    ∧ (panel_hx8369_init pf hx8369).effects = (panel_hx8369_init platform_ok hx8369).effects
    ∧ (panel_hx8369_init pf hx8369).effects.length = 13 := by
  refine ⟨rfl, rfl, ?_, ?_⟩
  · simp only [panel_hx8369_init, esp_lcd_panel_io_tx_param]
  · simp only [panel_hx8369_init, esp_lcd_panel_io_tx_param, List.cons_append, List.nil_append,
      List.length_cons, List.length_nil]

/-- C11 as stated fails: on a bus that fails every transaction with `ESP_FAIL`
the first transaction of `init` (0xB9) already fails, yet `init` returns
`ESP_OK`, not the failure, and goes on to issue all thirteen collaborator
calls instead of stopping after the first. -/
theorem init_returns_ok_on_failing_bus :
    (esp_lcd_panel_io_tx_param platform_bus_fails board_panel.io 0xB9 param_B9 3).1 = ESP_FAIL
    ∧ ESP_FAIL ≠ ESP_OK
    ∧ (panel_hx8369_init platform_bus_fails board_panel).ret = ESP_OK
    ∧ (panel_hx8369_init platform_bus_fails board_panel).ret ≠ ESP_FAIL
    ∧ (panel_hx8369_init platform_bus_fails board_panel).effects.length = 13
    ∧ (panel_hx8369_init platform_bus_fails board_panel).effects
        ≠ [Effect.tx_param board_panel.io 0xB9 param_B9] := by
  refine ⟨rfl, by decide, rfl, by decide, by decide, ?_⟩
  intro h
  have hl := congrArg List.length h
  revert hl
  decide

/-! ## C12: pixel format and gaps along any sequence of calls -/

/-- Pixel format fields and gaps of a handle the factory returned. -/
theorem new_panel_format (pf : Platform) (io : Nat) (cfg : esp_lcd_panel_dev_config_t)
    (ret_panel : Bool) (hx8369 : hx8369_panel_t)
    (hnew : (esp_lcd_new_panel_hx8369 pf io (some cfg) ret_panel).ret_panel = some hx8369) :
    hx8369.bits_per_pixel = cfg.bits_per_pixel
    ∧ (cfg.bits_per_pixel = 16 ∨ cfg.bits_per_pixel = 18)
    ∧ hx8369.colmod_cal = (if cfg.bits_per_pixel = 16 then 0x55 else 0x66)
    ∧ hx8369.x_gap = 0 ∧ hx8369.y_gap = 0 := by
  unfold esp_lcd_new_panel_hx8369 at hnew
  by_cases h1 : io = 0 ∨ ret_panel = false
  · simp only [if_pos h1] at hnew
    cases hnew
  by_cases h2 : pf.calloc_ok = false
  · simp only [if_neg h1, if_pos h2] at hnew
    cases hnew
  by_cases h3 : cfg.reset_gpio_num ≥ 0 ∧
      pf.gpio_config ((1 <<< cfg.reset_gpio_num.toNat) % 2 ^ 64) ≠ ESP_OK
  · simp only [if_neg h1, if_neg h2, if_pos h3, new_panel_err] at hnew
    cases hnew
  by_cases h4 : cfg.color_space ≠ ESP_LCD_COLOR_SPACE_RGB
      ∧ cfg.color_space ≠ ESP_LCD_COLOR_SPACE_BGR
  · simp only [if_neg h1, if_neg h2, if_neg h3, if_pos h4, new_panel_err] at hnew
    cases hnew
  by_cases h5 : cfg.bits_per_pixel ≠ 16 ∧ cfg.bits_per_pixel ≠ 18
  · simp only [if_neg h1, if_neg h2, if_neg h3, if_neg h4, if_pos h5, new_panel_err] at hnew
    cases hnew
  simp only [if_neg h1, if_neg h2, if_neg h3, if_neg h4, if_neg h5,
    Option.some.injEq] at hnew
  have hb : cfg.bits_per_pixel = 16 ∨ cfg.bits_per_pixel = 18 := by
    by_cases h16 : cfg.bits_per_pixel = 16
    · exact Or.inl h16
    · by_cases h18 : cfg.bits_per_pixel = 18
      · exact Or.inr h18
      · exact absurd ⟨h16, h18⟩ h5
  rw [← hnew]
  by_cases h6 : cfg.color_space = ESP_LCD_COLOR_SPACE_RGB <;>
    by_cases h7 : cfg.bits_per_pixel = 16
  · simp only [if_pos h6, if_pos h7]
    refine ⟨?_, hb, ?_, ?_, ?_⟩ <;> first | rfl | trivial
  · simp only [if_pos h6, if_neg h7]
    refine ⟨?_, hb, ?_, ?_, ?_⟩ <;> first | rfl | trivial
  · simp only [if_neg h6, if_pos h7]
    refine ⟨?_, hb, ?_, ?_, ?_⟩ <;> first | rfl | trivial
  · simp only [if_neg h6, if_neg h7]
    refine ⟨?_, hb, ?_, ?_, ?_⟩ <;> first | rfl | trivial

/-- No operation changes `bits_per_pixel` or `colmod_cal`, and only `set_gap`
changes the gaps. -/
theorem do_call_format_frame (pf : Platform) (hx8369 : hx8369_panel_t) (c : PanelCall)
    (hc : c.valid) :
    ∃ o, do_call pf hx8369 c = some o
      ∧ o.panel.bits_per_pixel = hx8369.bits_per_pixel
      ∧ o.panel.colmod_cal = hx8369.colmod_cal
      ∧ (o.panel.x_gap, o.panel.y_gap)
          = (match c with
             | PanelCall.set_gap x y => (x, y)
             | _ => (hx8369.x_gap, hx8369.y_gap)) := by
  cases c with
  | reset => exact ⟨_, rfl, by rw [reset_panel], by rw [reset_panel], by rw [reset_panel]⟩
  | init => exact ⟨_, rfl, rfl, rfl, rfl⟩
  | draw_bitmap x1 y1 x2 y2 d =>
    have hc2 : x1 < x2 ∧ y1 < y2 := hc
    show ∃ o, panel_hx8369_draw_bitmap pf hx8369 x1 y1 x2 y2 d = some o
      ∧ o.panel.bits_per_pixel = hx8369.bits_per_pixel
      ∧ o.panel.colmod_cal = hx8369.colmod_cal
      ∧ (o.panel.x_gap, o.panel.y_gap) = (hx8369.x_gap, hx8369.y_gap)
    unfold panel_hx8369_draw_bitmap
    rw [if_pos hc2]
    exact ⟨_, rfl, rfl, rfl, rfl⟩
  | invert_color b => exact ⟨_, rfl, rfl, rfl, rfl⟩
  | mirror mx my => cases mx <;> cases my <;> exact ⟨_, rfl, rfl, rfl, rfl⟩
  | swap_xy s => cases s <;> exact ⟨_, rfl, rfl, rfl, rfl⟩
  | set_gap x y => exact ⟨_, rfl, rfl, rfl, rfl⟩
  | disp_on_off b => exact ⟨_, rfl, rfl, rfl, rfl⟩

theorem last_set_gap_snoc (cs : List PanelCall) (c : PanelCall) :
    last_set_gap (cs ++ [c])
      = match c with
        | PanelCall.set_gap x y => some (x, y)
        | _ => last_set_gap cs := by
  unfold last_set_gap
  rw [List.filterMap_append]
  cases c <;> simp [List.filterMap_cons]

/-- Invariant of the pixel format fields and the gaps along a sequence of calls. -/
theorem run_calls_format (pf : Platform) (hx8369 : hx8369_panel_t)
    (calls : List PanelCall) (hv : ∀ c ∈ calls, c.valid) :
    ∃ o, run_calls pf hx8369 calls = some o
      ∧ o.panel.bits_per_pixel = hx8369.bits_per_pixel
      ∧ o.panel.colmod_cal = hx8369.colmod_cal
      ∧ (o.panel.x_gap, o.panel.y_gap)
          = (last_set_gap calls).getD (hx8369.x_gap, hx8369.y_gap) := by
  induction calls using List.reverseRecOn with
  | nil => exact ⟨_, rfl, rfl, rfl, rfl⟩
  | append_singleton cs c ih =>
    obtain ⟨o, ho, hb, hcm, hg⟩ := ih (fun d hd => hv d (List.mem_append_left _ hd))
    have hc : c.valid := hv c (by simp)
    obtain ⟨o2, ho2, hb2, hcm2, hg2⟩ := do_call_format_frame pf o.panel c hc
    refine ⟨{ ret := o2.ret, panel := o2.panel, effects := o.effects ++ o2.effects },
      ?_, ?_, ?_, ?_⟩
    · rw [run_calls_snoc, ho]
      simp only [then_call, ho2]
    · show o2.panel.bits_per_pixel = _
      rw [hb2, hb]
    · show o2.panel.colmod_cal = _
      rw [hcm2, hcm]
    · show (o2.panel.x_gap, o2.panel.y_gap) = _
      rw [hg2, last_set_gap_snoc]
      cases c <;> first | exact hg | rfl

/-- C12: on a handle a successful factory call returned, after any finite
sequence of `reset`, `init`, `draw_bitmap`, `invert_color`, `mirror`,
`swap_xy`, `set_gap` and `disp_on_off` calls (drawn regions within the caller's
contract) `bits_per_pixel` and `colmod_cal` still hold the values set at
creation, so `colmod_cal = 0x55` iff `bits_per_pixel = 16` and
`colmod_cal = 0x66` iff `bits_per_pixel = 18`; the gaps are those of the most
recent `set_gap`, or the 0 of creation when there was none, so no other call
changes them. -/
theorem format_and_gaps_after_calls (pf : Platform) (io : Nat)
    (cfg : esp_lcd_panel_dev_config_t) (ret_panel : Bool) (hx8369 : hx8369_panel_t)
    (calls : List PanelCall)
    (hnew : (esp_lcd_new_panel_hx8369 pf io (some cfg) ret_panel).ret_panel = some hx8369)
    (hv : ∀ c ∈ calls, c.valid) :
    ∃ o, run_calls pf hx8369 calls = some o
      ∧ o.panel.bits_per_pixel = hx8369.bits_per_pixel
      ∧ o.panel.colmod_cal = hx8369.colmod_cal
      ∧ o.panel.bits_per_pixel = cfg.bits_per_pixel
      ∧ (o.panel.colmod_cal = 0x55 ↔ o.panel.bits_per_pixel = 16)
      ∧ (o.panel.colmod_cal = 0x66 ↔ o.panel.bits_per_pixel = 18)
      ∧ (o.panel.x_gap, o.panel.y_gap) = (last_set_gap calls).getD (0, 0) := by
  obtain ⟨hb0, hcases, hc0, hx0, hy0⟩ := new_panel_format pf io cfg ret_panel hx8369 hnew
  obtain ⟨o, ho, hb, hcm, hg⟩ := run_calls_format pf hx8369 calls hv
  refine ⟨o, ho, hb, hcm, by rw [hb, hb0], ?_, ?_, ?_⟩
  · rw [hcm, hc0, hb, hb0]
    rcases hcases with h | h <;> rw [h] <;> decide
  · rw [hcm, hc0, hb, hb0]
    rcases hcases with h | h <;> rw [h] <;> decide
  · rw [hg, hx0, hy0]

/-- Witness of C12: the board handle (16 bits per pixel), then `set_gap(5, 7)`,
`mirror(true, false)`, a draw, `init` and `reset`. -/
theorem format_and_gaps_after_calls_witness :
    (esp_lcd_new_panel_hx8369 platform_ok 1
        (some { reset_gpio_num := 9, color_space := ESP_LCD_COLOR_SPACE_RGB,
                bits_per_pixel := 16, reset_active_high := false }) true).ret_panel
      = some board_panel
    ∧ ∃ o, run_calls platform_ok board_panel
          [PanelCall.set_gap 5 7, PanelCall.mirror true false,
           PanelCall.draw_bitmap 0 0 10 10 0, PanelCall.init, PanelCall.reset] = some o
        ∧ o.panel.bits_per_pixel = 16
        ∧ o.panel.colmod_cal = 0x55
        ∧ (o.panel.x_gap, o.panel.y_gap) = (5, 7) := by
  refine ⟨by decide, ?_⟩
  obtain ⟨o, ho, hb, hcm, _, _, _, hg⟩ :=
    format_and_gaps_after_calls platform_ok 1
      { reset_gpio_num := 9, color_space := ESP_LCD_COLOR_SPACE_RGB,
        bits_per_pixel := 16, reset_active_high := false }
      true board_panel
      [PanelCall.set_gap 5 7, PanelCall.mirror true false,
       PanelCall.draw_bitmap 0 0 10 10 0, PanelCall.init, PanelCall.reset]
      (by decide)
      (by
        intro c hc
        simp only [List.mem_cons, List.mem_singleton, List.not_mem_nil, or_false] at hc
        rcases hc with h | h | h | h | h <;> subst h <;> simp [PanelCall.valid])
  exact ⟨o, ho, hb, hcm, hg⟩

end HX8369
